import Mathlib

/-!
Shallow embedding of the geometry pipeline of `commander_deck_box.py`
(cadquery-deckbox repository), together with theorems settling the
specification claims about it.

Conventions of the embedding:
* All millimetre quantities are rationals (`ℚ`); the Python source uses
  IEEE floats but every claim here is about the real-arithmetic content
  of the formulas, which the rational embedding represents exactly.
* The single irrational quantity in the source, `math.hypot(d, d) = |d|·√2`
  (line 334), lives in the exact scalar type `R2` representing `q + s·√2`.
* CadQuery solids are modelled syntactically by the inductive type `Solid`
  of the boolean/primitive constructions the source performs; the opaque
  OCCT kernel operations (edge selection, fillet, chamfer, bounding box)
  are modelled by a `Kernel` record of oracle functions.  A fillet/chamfer
  attempt that raises a kernel exception is modelled by the oracle
  returning `none`.
-/

/-- Exact arithmetic in `ℚ + ℚ·√2`: `q + s * Real.sqrt 2`.  Needed because
`chamfer_side_depression_openings` computes `math.hypot(d, d) = |d|·√2`. -/
structure R2 where
  q : ℚ
  s : ℚ
deriving DecidableEq

namespace R2

/-- Embed a rational number. -/
def ofRat (a : ℚ) : R2 := ⟨a, 0⟩

/-- Componentwise subtraction: `(q₁ + s₁√2) - (q₂ + s₂√2)`. -/
def sub (x y : R2) : R2 := ⟨x.q - y.q, x.s - y.s⟩

/-- Scaling by a rational: `(q + s√2)·c`. -/
def mulRat (x : R2) (c : ℚ) : R2 := ⟨x.q * c, x.s * c⟩

/-- Decide `0 ≤ q + s·√2` by sign analysis and squaring.  For `q ≥ 0, s < 0`
the condition is `q ≥ |s|·√2`, i.e. `q² ≥ 2s²`; for `q < 0, s ≥ 0` it is
`s·√2 ≥ -q`, i.e. `2s² ≥ q²`.  Ties `q² = 2s²` with `s ≠ 0` cannot occur
over `ℚ` since `√2` is irrational. -/
def isNonneg (x : R2) : Bool :=
  if 0 ≤ x.q then
    (if 0 ≤ x.s then true else (if 2 * x.s ^ 2 ≤ x.q ^ 2 then true else false))
  else
    (if 0 ≤ x.s then (if x.q ^ 2 ≤ 2 * x.s ^ 2 then true else false) else false)

/-- Order on `R2`: `x ≤ y` iff `y - x ≥ 0`. -/
def le (x y : R2) : Bool := (sub y x).isNonneg

/-- Strict order on `R2`. -/
def lt (x y : R2) : Bool := !(le y x)

/-- Minimum of two `R2` values. -/
def rmin (x y : R2) : R2 := if le x y then x else y

/-- Model of the source expression `math.hypot(d, d) = |d|·√2`. -/
def hypotSame (d : ℚ) : R2 := ⟨0, |d|⟩

end R2

/-- Configuration record `DeckSpec` (source lines 70–78). -/
structure DeckSpec where
  card_count : ℕ
  card_size_mm : ℚ × ℚ
  outer_sleeve_size_mm : ℚ × ℚ
  estimated_double_sleeved_card_thickness_mm : ℚ
  side_clearance_mm : ℚ
  stack_clearance_mm : ℚ
  top_clearance_mm : ℚ

/-- Configuration record `BoxSpec` (source lines 81–90). -/
structure BoxSpec where
  wall_thickness_mm : ℚ
  bottom_thickness_mm : ℚ
  compensate_lid_intrusion : Bool
  link_entry_height_to_lid : Bool
  corner_radius_mm : ℚ
  entry_height_mm : ℚ
  entry_depth_mm : ℚ
  top_chamfer_mm : ℚ

/-- Configuration record `LidSpec` (source lines 93–109). -/
structure LidSpec where
  clearance_mm : ℚ
  thickness_mm : ℚ
  overhang_front_mm : ℚ
  explode_offset_mm : ℚ
  groove_cut_depth_mm : ℚ
  groove_fit_relief_mm : ℚ
  hex_tip_offset_mm : ℚ
  mirror_front_entry_shape : Bool
  detents_enabled : Bool
  detent_diameter_mm : ℚ
  detent_protrusion_mm : ℚ
  detent_front_margin_mm : ℚ
  detent_top_margin_mm : ℚ
  detent_cut_ratio : ℚ
  detent_face_modes : List String

/-- Configuration record `SideDepressionSpec` (source lines 122–131). -/
structure SideDepressionSpec where
  enabled : Bool
  faces : List String
  depth_mm : ℚ
  edge_chamfer_mm : ℚ
  edge_margin_mm : ℚ
  top_extra_margin_mm : ℚ
  offset_u_mm : ℚ
  offset_v_mm : ℚ

/-- Default `DeckSpec()` of the source (lines 70–78). -/
def deck_default : DeckSpec :=
  { card_count := 100
    card_size_mm := (63, 88)
    outer_sleeve_size_mm := (66, 91)
    estimated_double_sleeved_card_thickness_mm := 0.76
    side_clearance_mm := 1.5
    stack_clearance_mm := 2
    top_clearance_mm := 4 }

/-- Default `BoxSpec()` of the source (lines 81–90). -/
def box_default : BoxSpec :=
  { wall_thickness_mm := 4
    bottom_thickness_mm := 0.56
    compensate_lid_intrusion := true
    link_entry_height_to_lid := true
    corner_radius_mm := 2
    entry_height_mm := 2
    entry_depth_mm := 10
    top_chamfer_mm := 0.8 }

/-- Default `LidSpec()` of the source (lines 93–109). -/
def lid_default : LidSpec :=
  { clearance_mm := 0.2
    thickness_mm := 3
    overhang_front_mm := 1.5
    explode_offset_mm := 100
    groove_cut_depth_mm := 1.2
    groove_fit_relief_mm := 0.1
    hex_tip_offset_mm := 1.4
    mirror_front_entry_shape := true
    detents_enabled := true
    detent_diameter_mm := 0.6
    detent_protrusion_mm := 0.5
    detent_front_margin_mm := 5
    detent_top_margin_mm := 1
    detent_cut_ratio := 0.8
    detent_face_modes := ["z_inner"] }

/-- Default `SideDepressionSpec()` of the source (lines 122–131). -/
def dep_default : SideDepressionSpec :=
  { enabled := true
    faces := [">X", "<X", ">Y", "<Y"]
    depth_mm := 3
    edge_chamfer_mm := 4.25
    edge_margin_mm := 5
    top_extra_margin_mm := 3
    offset_u_mm := 0
    offset_v_mm := 0 }

/-- A 3D translation vector / point. -/
def Vec3 : Type := ℚ × ℚ × ℚ

instance : DecidableEq Vec3 := by unfold Vec3; infer_instance

/-- A `cq.selectors.BoxSelector((x0,y0,z0),(x1,y1,z1))`: an axis-aligned
spatial region given by two corner points. -/
structure Region where
  lo : Vec3
  hi : Vec3
deriving DecidableEq

/-- A bounding box as returned by `shape.BoundingBox()`. -/
structure BBox where
  xmin : ℚ
  xmax : ℚ
  ymin : ℚ
  ymax : ℚ
  zmin : ℚ
  zmax : ℚ

/-- `BoundingBox().xlen`. -/
def BBox.xlen (b : BBox) : ℚ := b.xmax - b.xmin

/-- `BoundingBox().ylen`. -/
def BBox.ylen (b : BBox) : ℚ := b.ymax - b.ymin

/-- `BoundingBox().zlen`. -/
def BBox.zlen (b : BBox) : ℚ := b.zmax - b.zmin

/-- Syntactic model of the CadQuery solids the source constructs.
`box w d h cx cy cz zoff` is `Workplane("XY").workplane(offset=zoff)
.box(w, d, h, centered=(cx, cy, cz))`; `polyExtrudeXZ pts depth` is
`Workplane("XZ").polyline(pts).close().extrude(depth)`;
`sphere r` is `Workplane("XY").sphere(r)`; the remaining constructors are
the boolean operations and rigid translation. -/
inductive Solid where
  | box (w d h : ℚ) (cx cy cz : Bool) (zoff : ℚ)
  | polyExtrudeXZ (pts : List (ℚ × ℚ)) (depth : ℚ)
  | sphere (r : ℚ)
  | translate (s : Solid) (v : Vec3)
  | union (a b : Solid)
  | cut (a b : Solid)
  | intersect (a b : Solid)
deriving DecidableEq

/-- Oracle model of the opaque OCCT geometry kernel.  `edges s sel` is the
number of edges `s.edges(sel).size()` selected by a box selector;
`fillet`/`chamfer` model `edges.fillet(r)` / `edges.chamfer(c)`, with
`none` standing for a raised kernel exception; `bbox` models
`val().BoundingBox()`. -/
structure Kernel where
  edges : Solid → Region → ℕ
  fillet : Solid → Region → ℚ → Option Solid
  chamfer : Solid → Region → R2 → Option Solid
  bbox : Solid → BBox

/-- Derived dimension record `dims` built by `build_body` (source lines
156–161). -/
structure Dims where
  inner : Vec3
  inner_nominal : Vec3
  lid_comp_h : ℚ
  outer : Vec3

/-- `calculate_internal` (source lines 134–138): inner envelope from the
deck measurements. -/
def calculate_internal (deck : DeckSpec) : ℚ × ℚ × ℚ :=
  let inner_w := deck.outer_sleeve_size_mm.1 + 2 * deck.side_clearance_mm
  let inner_d := (deck.card_count : ℚ) * deck.estimated_double_sleeved_card_thickness_mm
      + deck.stack_clearance_mm
  let inner_h := deck.outer_sleeve_size_mm.2 + deck.top_clearance_mm
  (inner_w, inner_d, inner_h)

/-- Retry factors of the robust finishing routines (source lines 202, 356,
452): the fillet/chamfer is attempted at `radius × factor` for these
factors in order. -/
def retry_factors : List ℚ := [1, 0.85, 0.7, 0.55, 0.4]

/-- Loop body of `_safe_fillet` (source lines 201–213): walk the factor
list; skip factors whose scaled radius is below 0.05; return the input
when the edge selection is empty; return the first successful fillet;
fall through to the input when every attempt fails. -/
def safe_fillet_go (K : Kernel) (body_in : Solid) (sel : Region) (radius : ℚ) :
    List ℚ → Solid
  | [] => body_in
  | f :: rest =>
    let r_try := radius * f
    if r_try < 0.05 then safe_fillet_go K body_in sel radius rest
    else if K.edges body_in sel = 0 then body_in
    else (K.fillet body_in sel r_try).getD (safe_fillet_go K body_in sel radius rest)

/-- `_safe_fillet` (source lines 201–213). -/
def safe_fillet (K : Kernel) (body_in : Solid) (sel : Region) (radius : ℚ) : Solid :=
  safe_fillet_go K body_in sel radius retry_factors

/-- `round_outer_edges` (source lines 166–217): robust fillet of the four
outer vertical edge bands and the bottom perimeter. -/
def round_outer_edges (K : Kernel) (body : Solid) (dims : Dims) (box : BoxSpec) : Solid :=
  let r := max 0 box.corner_radius_mm
  if r ≤ 0 then body
  else
    let outer_w := dims.outer.1
    let outer_d := dims.outer.2.1
    let outer_h := dims.outer.2.2
    let tol := (0.25 : ℚ)
    let pad := (0.6 : ℚ)
    let selectors : List Region :=
      [⟨(outer_w * 0.5 - tol, -(outer_d * 0.5) - pad, -pad),
        (outer_w * 0.5 + tol, outer_d * 0.5 + pad, outer_h + pad)⟩,
       ⟨(-(outer_w * 0.5) - tol, -(outer_d * 0.5) - pad, -pad),
        (-(outer_w * 0.5) + tol, outer_d * 0.5 + pad, outer_h + pad)⟩,
       ⟨(-(outer_w * 0.5) - pad, outer_d * 0.5 - tol, -pad),
        (outer_w * 0.5 + pad, outer_d * 0.5 + tol, outer_h + pad)⟩,
       ⟨(-(outer_w * 0.5) - pad, -(outer_d * 0.5) - tol, -pad),
        (outer_w * 0.5 + pad, -(outer_d * 0.5) + tol, outer_h + pad)⟩,
       ⟨(-(outer_w * 0.5) - pad, -(outer_d * 0.5) - pad, -tol),
        (outer_w * 0.5 + pad, outer_d * 0.5 + pad, tol)⟩]
    selectors.foldl (fun b sel => safe_fillet K b sel r) body

/-- `build_body` (source lines 141–163): hollow shell solid plus the
derived dimension record. -/
def build_body (K : Kernel) (deck : DeckSpec) (box : BoxSpec) : Solid × Dims :=
  let ci := calculate_internal deck
  let inner_w := ci.1
  let inner_d := ci.2.1
  let inner_h_nominal := ci.2.2
  let lid_comp_h := if box.compensate_lid_intrusion then box.wall_thickness_mm else 0
  let inner_h := inner_h_nominal + lid_comp_h
  let outer_w := inner_w + 2 * box.wall_thickness_mm
  let outer_d := inner_d + 2 * box.wall_thickness_mm
  let outer_h := inner_h + box.bottom_thickness_mm
  let solid := Solid.box outer_w outer_d outer_h true true false 0
  let cavity := Solid.box inner_w inner_d (inner_h + 0.2) true true false box.bottom_thickness_mm
  let body := Solid.cut solid cavity
  let dims : Dims :=
    { inner := (inner_w, inner_d, inner_h)
      inner_nominal := (inner_w, inner_d, inner_h_nominal)
      lid_comp_h := lid_comp_h
      outer := (outer_w, outer_d, outer_h) }
  (round_outer_edges K body dims box, dims)

/-- Spatial region selected by `chamfer_top_inner_edges` (source lines
263–266), factored out so theorems can refer to it. -/
def top_inner_sel (K : Kernel) (body : Solid) (box : BoxSpec) : Region :=
  let bb := K.bbox body
  let top := bb.zmax
  let inner_w := bb.xlen - 2 * box.wall_thickness_mm
  let inner_d := bb.ylen - 2 * box.wall_thickness_mm
  ⟨(-(inner_w / 2) - 0.6, -(inner_d / 2) - 0.6, top - 0.2),
   (inner_w / 2 + 0.6, inner_d / 2 + 0.6, top + 0.2)⟩

/-- `chamfer_top_inner_edges` (source lines 256–270).  In the source the
call `edges.chamfer(box.top_chamfer_mm)` is NOT wrapped in any
try/except, so a kernel failure propagates to the caller; the embedding
therefore returns `Option Solid`, with `none` standing for the raised
exception. -/
def chamfer_top_inner_edges (K : Kernel) (body : Solid) (box : BoxSpec) : Option Solid :=
  if box.top_chamfer_mm ≤ 0 then some body
  else
    let sel := top_inner_sel K body box
    if K.edges body sel ≠ 0 then K.chamfer body sel (R2.ofRat box.top_chamfer_mm)
    else some body

/-- Clamped depression depth computed by `add_side_depressions` (source
lines 278–282): the requested depth, clamped to the smaller per-axis wall
thickness `(outer - inner)/2` minus the 0.05 safety margin (and to 0 from
below). -/
def side_depression_depth (dims : Dims) (dep : SideDepressionSpec) : ℚ :=
  let wall_x := (dims.outer.1 - dims.inner.1) * 0.5
  let wall_y := (dims.outer.2.1 - dims.inner.2.1) * 0.5
  let max_depth := max 0 (min wall_x wall_y - 0.05)
  min |dep.depth_mm| max_depth

/-- `add_side_depressions` (source lines 273–326): clamp the requested
depth to the available wall thickness minus a 0.05 safety margin, cut a
thin panel into each enabled face, and return the modified body together
with the effective depth. -/
def add_side_depressions (body : Solid) (dims : Dims) (dep : SideDepressionSpec) :
    Solid × ℚ :=
  if !dep.enabled then (body, 0)
  else
    let outer_w := dims.outer.1
    let outer_d := dims.outer.2.1
    let outer_h := dims.outer.2.2
    let m := max 0 dep.edge_margin_mm
    let depth := side_depression_depth dims dep
    if depth ≤ 0 then (body, 0)
    else
      let eps := (0.05 : ℚ)
      let cut_t := depth + eps
      let top_margin := m + max 0 dep.top_extra_margin_mm
      let bottom_margin := m
      let z_low := bottom_margin
      let z_high := outer_h - top_margin
      let panel_h := max 1 (z_high - z_low)
      let zc := (z_low + z_high) * 0.5 + dep.offset_v_mm
      let side_x_w := max 1 (outer_d - 2 * m)
      let side_y_w := max 1 (outer_w - 2 * m)
      let cutters : List Solid :=
        (if ">X" ∈ dep.faces then
          [Solid.translate (Solid.box cut_t side_x_w panel_h true true true 0)
            (outer_w * 0.5 - depth * 0.5 + eps * 0.5, dep.offset_u_mm, zc)] else []) ++
        (if "<X" ∈ dep.faces then
          [Solid.translate (Solid.box cut_t side_x_w panel_h true true true 0)
            (-(outer_w * 0.5) + depth * 0.5 - eps * 0.5, dep.offset_u_mm, zc)] else []) ++
        (if ">Y" ∈ dep.faces then
          [Solid.translate (Solid.box side_y_w cut_t panel_h true true true 0)
            (dep.offset_u_mm, outer_d * 0.5 - depth * 0.5 + eps * 0.5, zc)] else []) ++
        (if "<Y" ∈ dep.faces then
          [Solid.translate (Solid.box side_y_w cut_t panel_h true true true 0)
            (dep.offset_u_mm, -(outer_d * 0.5) + depth * 0.5 - eps * 0.5, zc)] else [])
      (cutters.foldl Solid.cut body, depth)

/-- Loop body of `_safe_chamfer` (source lines 355–367), the chamfer
counterpart of `safe_fillet_go`, with the chamfer magnitude in `R2`. -/
def safe_chamfer_go (K : Kernel) (body_in : Solid) (sel : Region) (ch_in : R2) :
    List ℚ → Solid
  | [] => body_in
  | f :: rest =>
    let ch_try := ch_in.mulRat f
    if R2.lt ch_try (R2.ofRat 0.05) then safe_chamfer_go K body_in sel ch_in rest
    else if K.edges body_in sel = 0 then body_in
    else (K.chamfer body_in sel ch_try).getD (safe_chamfer_go K body_in sel ch_in rest)

/-- `_safe_chamfer` (source lines 355–367). -/
def safe_chamfer (K : Kernel) (body_in : Solid) (sel : Region) (ch_in : R2) : Solid :=
  safe_chamfer_go K body_in sel ch_in retry_factors

/-- `chamfer_side_depression_openings` (source lines 329–394): chamfer
the openings of the side depressions, using the diagonal reference
`hypot(depth, depth)` when no positive explicit chamfer is configured. -/
def chamfer_side_depression_openings (K : Kernel) (body : Solid) (dims : Dims)
    (dep : SideDepressionSpec) (depth_effective : ℚ) : Solid :=
  let ch_diag := R2.hypotSame depth_effective
  let ch0 := if dep.edge_chamfer_mm ≤ 0 then ch_diag else R2.ofRat (max 0 dep.edge_chamfer_mm)
  if R2.le ch0 (R2.ofRat 0) ∨ depth_effective ≤ 0 then body
  else
    let outer_w := dims.outer.1
    let outer_d := dims.outer.2.1
    let outer_h := dims.outer.2.2
    let m := max 0 dep.edge_margin_mm
    let top_margin := m + max 0 dep.top_extra_margin_mm
    let bottom_margin := m
    let z_low := bottom_margin
    let z_high := outer_h - top_margin
    let panel_h := max 1 (z_high - z_low)
    let zc := (z_low + z_high) * 0.5 + dep.offset_v_mm
    let half_h := panel_h * 0.5
    let tol := (0.25 : ℚ)
    let span_pad := (0.6 : ℚ)
    let ch := R2.rmin ch0 ch_diag
    let b1 :=
      if ">X" ∈ dep.faces then
        safe_chamfer K body
          ⟨(outer_w * 0.5 - tol, -(outer_d * 0.5) + m - span_pad, zc - half_h - span_pad),
           (outer_w * 0.5 + tol, outer_d * 0.5 - m + span_pad, zc + half_h + span_pad)⟩ ch
      else body
    let b2 :=
      if "<X" ∈ dep.faces then
        safe_chamfer K b1
          ⟨(-(outer_w * 0.5) - tol, -(outer_d * 0.5) + m - span_pad, zc - half_h - span_pad),
           (-(outer_w * 0.5) + tol, outer_d * 0.5 - m + span_pad, zc + half_h + span_pad)⟩ ch
      else b1
    let b3 :=
      if ">Y" ∈ dep.faces then
        safe_chamfer K b2
          ⟨(-(outer_w * 0.5) + m - span_pad, outer_d * 0.5 - tol, zc - half_h - span_pad),
           (outer_w * 0.5 - m + span_pad, outer_d * 0.5 + tol, zc + half_h + span_pad)⟩ ch
      else b2
    let b4 :=
      if "<Y" ∈ dep.faces then
        safe_chamfer K b3
          ⟨(-(outer_w * 0.5) + m - span_pad, -(outer_d * 0.5) - tol, zc - half_h - span_pad),
           (outer_w * 0.5 - m + span_pad, -(outer_d * 0.5) + tol, zc + half_h + span_pad)⟩ ch
      else b3
    b4

/-- Dimension record `dims_lid` returned by `build_hex_lid` (source line
429). -/
structure LidDims where
  w_top : ℚ
  w_total : ℚ
  d : ℚ
  h : ℚ
  y_min : ℚ
  y_max : ℚ

/-- `build_hex_lid` (source lines 397–430): hexagonal-profile sliding lid
extruded along the depth axis and aligned to the body. -/
def build_hex_lid (K : Kernel) (box : BoxSpec) (lid_spec : LidSpec) (dims : Dims) :
    Solid × LidDims :=
  let inner_w := dims.inner.1
  let inner_d := dims.inner.2.1
  let outer_d := dims.outer.2.1
  let outer_h := dims.outer.2.2
  let top_width := inner_w
  let tip_offset := max 0.1 lid_spec.hex_tip_offset_mm
  let lid_w_total := top_width + 2 * tip_offset
  let lid_d := inner_d + box.wall_thickness_mm
  let lid_h := box.wall_thickness_mm
  let w := lid_w_total
  let h := lid_h
  let pts : List (ℚ × ℚ) :=
    [(-(w / 2), 0), (-(top_width / 2), h / 2), (top_width / 2, h / 2),
     (w / 2, 0), (top_width / 2, -(h / 2)), (-(top_width / 2), -(h / 2))]
  let lid0 := Solid.polyExtrudeXZ pts lid_d
  let y_min := -(inner_d / 2)
  let y_max := outer_d / 2
  let bb := K.bbox lid0
  let lid1 := Solid.translate lid0 (0, y_min - bb.ymin, 0)
  let lid2 := Solid.translate lid1 (0, 0, outer_h - lid_h / 2)
  (lid2, { w_top := top_width, w_total := lid_w_total, d := lid_d, h := lid_h,
           y_min := y_min, y_max := y_max })

/-- Loop body of `round_lid_front_edges` (source lines 452–459).  Unlike
`_safe_fillet` this inline retry loop has no minimum-radius skip. -/
def round_lid_front_edges_go (K : Kernel) (lid : Solid) (sel : Region) (r : ℚ) :
    List ℚ → Solid
  | [] => lid
  | f :: rest =>
    if K.edges lid sel = 0 then lid
    else (K.fillet lid sel (r * f)).getD (round_lid_front_edges_go K lid sel r rest)

/-- `round_lid_front_edges` (source lines 441–460): robust fillet of the
lid's front edge band. -/
def round_lid_front_edges (K : Kernel) (lid : Solid) (box : BoxSpec) : Solid :=
  let r := max 0 box.corner_radius_mm
  if r ≤ 0 then lid
  else
    let bb := K.bbox lid
    let tol := (0.25 : ℚ)
    let pad := (0.6 : ℚ)
    let sel : Region :=
      ⟨(bb.xmin - pad, bb.ymax - tol, bb.zmin - pad),
       (bb.xmax + pad, bb.ymax + tol, bb.zmax + pad)⟩
    round_lid_front_edges_go K lid sel r retry_factors

/-- Detent sphere radius `r = max(0.2, detent_diameter * 0.5)` computed by
`add_lid_detents` (source line 468). -/
def detent_radius (l : LidSpec) : ℚ := max 0.2 (l.detent_diameter_mm * 0.5)

/-- Full detent protrusion
`protrusion_full = max(0.1, min(detent_protrusion, r * 0.98))` computed by
`add_lid_detents` (source line 469). -/
def detent_protrusion_full (l : LidSpec) : ℚ :=
  max 0.1 (min l.detent_protrusion_mm (detent_radius l * 0.98))

/-- Clamped detent cut ratio `min(1.0, max(0.1, detent_cut_ratio))`
computed by `add_lid_detents` (source line 470). -/
def detent_cut_ratio_clamped (l : LidSpec) : ℚ :=
  min 1 (max 0.1 l.detent_cut_ratio)

/-- Cut detent protrusion `protrusion_cut = protrusion_full * cut_ratio`
computed by `add_lid_detents` (source line 471). -/
def detent_protrusion_cut (l : LidSpec) : ℚ :=
  detent_protrusion_full l * detent_cut_ratio_clamped l

/-- Groove cutter built by `cut_body_with_lid` (source lines 549–562):
the lid silhouette dropped by the anti-coplanar epsilon, and — when the
fit relief is positive — unioned with four more copies of the lid
translated by `±fit_relief` along X and along Y (both at the same
epsilon drop). -/
def lid_groove_cutter (lid : Solid) (lid_spec : LidSpec) : Solid :=
  let eps := (0.05 : ℚ)
  let cutter := Solid.translate lid (0, 0, -eps)
  let r := lid_spec.groove_fit_relief_mm
  if 0 < r then
    Solid.union
      (Solid.union
        (Solid.union
          (Solid.union cutter (Solid.translate lid (r, 0, -eps)))
          (Solid.translate lid (-r, 0, -eps)))
        (Solid.translate lid (0, r, -eps)))
      (Solid.translate lid (0, -r, -eps))
  else cutter

/-- `cut_body_with_lid` (source lines 549–563). -/
def cut_body_with_lid (body lid : Solid) (lid_spec : LidSpec) : Solid :=
  Solid.cut body (lid_groove_cutter lid lid_spec)

/-- The groove cutter as claim C7 describes it: the lid silhouette unioned
with copies of itself translated by `±fit_relief` only along the two axes
transverse to the sliding (depth, Y) direction, namely X and Z.  This
definition follows the claim's words (keeping the source's shared
anti-coplanar epsilon drop) and is compared against the source-derived
`lid_groove_cutter`. -/
def lid_groove_cutter_transverse (lid : Solid) (lid_spec : LidSpec) : Solid :=
  let eps := (0.05 : ℚ)
  let cutter := Solid.translate lid (0, 0, -eps)
  let r := lid_spec.groove_fit_relief_mm
  if 0 < r then
    Solid.union
      (Solid.union
        (Solid.union
          (Solid.union cutter (Solid.translate lid (r, 0, -eps)))
          (Solid.translate lid (-r, 0, -eps)))
        (Solid.translate lid (0, 0, r - eps)))
      (Solid.translate lid (0, 0, -r - eps))
  else cutter

/-- A concrete placeholder solid used by witnesses and counterexamples. -/
def b0 : Solid := Solid.box 1 1 1 true true false 0

/-- A second concrete solid, distinct from `b0`, used as the distinguished
result of a succeeding kernel oracle. -/
def b1 : Solid := Solid.box 2 2 2 true true false 0

/-- A concrete bounding box for the constant-`bbox` kernel oracles. -/
def bbox0 : BBox := ⟨-1, 1, -1, 1, 0, 2⟩

/-- Kernel oracle on which every fillet/chamfer attempt raises (returns
`none`) while edge selections are nonempty. -/
def Kfail : Kernel :=
  { edges := fun _ _ => 1
    fillet := fun _ _ _ => none
    chamfer := fun _ _ _ => none
    bbox := fun _ => bbox0 }

/-- Kernel oracle on which every fillet/chamfer attempt succeeds with the
distinguished solid `b1`. -/
def Ksucc : Kernel :=
  { edges := fun _ _ => 1
    fillet := fun _ _ _ => some b1
    chamfer := fun _ _ _ => some b1
    bbox := fun _ => bbox0 }

/-- Kernel oracle whose edge selections are all empty. -/
def K0 : Kernel :=
  { edges := fun _ _ => 0
    fillet := fun _ _ _ => none
    chamfer := fun _ _ _ => none
    bbox := fun _ => bbox0 }

/-- A concrete spatial region for witnesses. -/
def sel0 : Region := ⟨(0, 0, 0), (1, 1, 1)⟩

/-- Result of the first successful fillet attempt over a factor list, as
the spec describes the retry sequence: try `radius × factor` for each
factor in order and keep the first result the kernel accepts (`none` when
every attempt fails).  Claim-side model, compared against `safe_fillet`. -/
def fillet_first_success (K : Kernel) (b : Solid) (sel : Region) (r : ℚ) :
    List ℚ → Option Solid
  | [] => none
  | f :: rest =>
    match K.fillet b sel (r * f) with
    | some res => some res
    | none => fillet_first_success K b sel r rest

/-- Chamfer counterpart of `fillet_first_success`. -/
def chamfer_first_success (K : Kernel) (b : Solid) (sel : Region) (c : R2) :
    List ℚ → Option Solid
  | [] => none
  | f :: rest =>
    match K.chamfer b sel (c.mulRat f) with
    | some res => some res
    | none => chamfer_first_success K b sel c rest

/-- When every kernel fillet attempt fails, the `_safe_fillet` loop returns
its input for any factor list. -/
lemma safe_fillet_go_all_fail (K : Kernel) (hf : ∀ s sl q, K.fillet s sl q = none)
    (b : Solid) (sel : Region) (r : ℚ) :
    ∀ fs : List ℚ, safe_fillet_go K b sel r fs = b := by
  intro fs
  induction fs with
  | nil => rfl
  | cons f rest ih =>
    simp only [safe_fillet_go, hf, Option.getD_none]
    split_ifs <;> simp [ih]

/-- When every kernel fillet attempt fails, `_safe_fillet` returns its
input. -/
lemma safe_fillet_all_fail (K : Kernel) (hf : ∀ s sl q, K.fillet s sl q = none) :
    ∀ (b : Solid) (sel : Region) (r : ℚ), safe_fillet K b sel r = b := by
  intro b sel r
  exact safe_fillet_go_all_fail K hf b sel r retry_factors

/-- When every kernel chamfer attempt fails, the `_safe_chamfer` loop
returns its input for any factor list. -/
lemma safe_chamfer_go_all_fail (K : Kernel) (hc : ∀ s sl c, K.chamfer s sl c = none)
    (b : Solid) (sel : Region) (ch : R2) :
    ∀ fs : List ℚ, safe_chamfer_go K b sel ch fs = b := by
  intro fs
  induction fs with
  | nil => rfl
  | cons f rest ih =>
    simp only [safe_chamfer_go, hc, Option.getD_none]
    split_ifs <;> simp [ih]

/-- When every kernel chamfer attempt fails, `_safe_chamfer` returns its
input. -/
lemma safe_chamfer_all_fail (K : Kernel) (hc : ∀ s sl c, K.chamfer s sl c = none) :
    ∀ (b : Solid) (sel : Region) (ch : R2), safe_chamfer K b sel ch = b := by
  intro b sel ch
  exact safe_chamfer_go_all_fail K hc b sel ch retry_factors

/-- When every kernel fillet attempt fails, the `round_lid_front_edges`
retry loop returns the lid for any factor list. -/
lemma round_lid_front_edges_go_all_fail (K : Kernel)
    (hf : ∀ s sl q, K.fillet s sl q = none) (lid : Solid) (sel : Region) (r : ℚ) :
    ∀ fs : List ℚ, round_lid_front_edges_go K lid sel r fs = lid := by
  intro fs
  induction fs with
  | nil => rfl
  | cons f rest ih =>
    simp only [round_lid_front_edges_go, hf, Option.getD_none]
    split_ifs <;> simp [ih]

/-- An empty edge selection makes the `_safe_fillet` loop return its input
for any factor list. -/
lemma safe_fillet_go_empty_sel (K : Kernel) (b : Solid) (sel : Region) (r : ℚ)
    (he : K.edges b sel = 0) :
    ∀ fs : List ℚ, safe_fillet_go K b sel r fs = b := by
  intro fs
  induction fs with
  | nil => rfl
  | cons f rest ih =>
    simp only [safe_fillet_go, he, if_true]
    split_ifs <;> simp [ih]

/-- An empty edge selection makes the `_safe_chamfer` loop return its
input for any factor list. -/
lemma safe_chamfer_go_empty_sel (K : Kernel) (b : Solid) (sel : Region) (ch : R2)
    (he : K.edges b sel = 0) :
    ∀ fs : List ℚ, safe_chamfer_go K b sel ch fs = b := by
  intro fs
  induction fs with
  | nil => rfl
  | cons f rest ih =>
    simp only [safe_chamfer_go, he, if_true]
    split_ifs <;> simp [ih]

/-- With a nonempty selection and no factor hitting the 0.05 minimum-size
skip, the `_safe_fillet` loop returns exactly the first successful
attempt (or its input when all attempts fail). -/
lemma safe_fillet_go_first_success (K : Kernel) (b : Solid) (sel : Region) (r : ℚ)
    (he : K.edges b sel ≠ 0) :
    ∀ fs : List ℚ, (∀ f ∈ fs, ¬(r * f < (0.05 : ℚ))) →
      safe_fillet_go K b sel r fs = (fillet_first_success K b sel r fs).getD b := by
  intro fs
  induction fs with
  | nil => intro _; rfl
  | cons f rest ih =>
    intro hno
    have h1 : ¬(r * f < (0.05 : ℚ)) := hno f (by simp)
    cases hK : K.fillet b sel (r * f) with
    | some res => simp [safe_fillet_go, fillet_first_success, hK, h1, he]
    | none =>
      have ihh := ih (fun g hg => hno g (by simp [hg]))
      simp [safe_fillet_go, fillet_first_success, hK, h1, he, ihh]

/-- With a nonempty selection and no factor hitting the 0.05 minimum-size
skip, the `_safe_chamfer` loop returns exactly the first successful
attempt (or its input when all attempts fail). -/
lemma safe_chamfer_go_first_success (K : Kernel) (b : Solid) (sel : Region) (c : R2)
    (he : K.edges b sel ≠ 0) :
    ∀ fs : List ℚ, (∀ f ∈ fs, R2.lt (c.mulRat f) (R2.ofRat 0.05) = false) →
      safe_chamfer_go K b sel c fs = (chamfer_first_success K b sel c fs).getD b := by
  intro fs
  induction fs with
  | nil => intro _; rfl
  | cons f rest ih =>
    intro hno
    have h1 : R2.lt (c.mulRat f) (R2.ofRat 0.05) = false := hno f (by simp)
    cases hK : K.chamfer b sel (c.mulRat f) with
    | some res => simp [safe_chamfer_go, chamfer_first_success, hK, h1, he]
    | none =>
      have ihh := ih (fun g hg => hno g (by simp [hg]))
      simp [safe_chamfer_go, chamfer_first_success, hK, h1, he, ihh]

/-- When every kernel fillet attempt fails, `round_outer_edges` returns
the body unchanged. -/
lemma round_outer_edges_all_fail (K : Kernel) (hf : ∀ s sl q, K.fillet s sl q = none)
    (body : Solid) (dims : Dims) (box : BoxSpec) :
    round_outer_edges K body dims box = body := by
  simp only [round_outer_edges, safe_fillet_all_fail K hf, List.foldl_cons, List.foldl_nil]
  split_ifs <;> rfl

/-- When every kernel chamfer attempt fails,
`chamfer_side_depression_openings` returns the body unchanged. -/
lemma chamfer_side_depression_all_fail (K : Kernel)
    (hc : ∀ s sl c, K.chamfer s sl c = none) (body : Solid) (dims : Dims)
    (dep : SideDepressionSpec) (d : ℚ) :
    chamfer_side_depression_openings K body dims dep d = body := by
  simp only [chamfer_side_depression_openings, safe_chamfer_all_fail K hc, ite_self]

/-- When every kernel fillet attempt fails, `round_lid_front_edges`
returns the lid unchanged. -/
lemma round_lid_front_edges_all_fail (K : Kernel)
    (hf : ∀ s sl q, K.fillet s sl q = none) (lid : Solid) (box : BoxSpec) :
    round_lid_front_edges K lid box = lid := by
  simp only [round_lid_front_edges, round_lid_front_edges_go_all_fail K hf]
  split_ifs <;> rfl

/-- Effective depth returned by `add_side_depressions`: the clamped depth
when the stage is enabled and the clamp is positive, 0 otherwise. -/
lemma add_side_depressions_snd (body : Solid) (dims : Dims) (dep : SideDepressionSpec) :
    (add_side_depressions body dims dep).2
      = if dep.enabled = true ∧ 0 < side_depression_depth dims dep
        then side_depression_depth dims dep else 0 := by
  cases hE : dep.enabled with
  | false => simp [add_side_depressions, hE]
  | true =>
    by_cases hd : side_depression_depth dims dep ≤ 0
    · rw [if_neg fun hyp => absurd hyp.2 (not_lt.mpr hd)]
      simp [add_side_depressions, hE, hd]
    · rw [if_pos ⟨rfl, lt_of_not_le hd⟩]
      simp [add_side_depressions, hE, hd]

/-- C1 (counterexample): with the source defaults (`wall_thickness = 4`,
`LidSpec.thickness = 3`) the compensation flag is set, yet the inner
height does NOT equal the nominal inner height plus `lid.thickness`:
`build_body` adds `box.wall_thickness_mm`, not `LidSpec.thickness_mm`. -/
theorem C1_lid_compensation_counterexample :
    box_default.compensate_lid_intrusion = true
    ∧ (build_body K0 deck_default box_default).2.inner.2.2
        ≠ (build_body K0 deck_default box_default).2.inner_nominal.2.2
          + lid_default.thickness_mm := by
  constructor
  · rfl
  · norm_num [build_body, calculate_internal, deck_default, box_default, lid_default]

/-- C1 (amended): the lid compensation added to the inner height is
`box.wall_thickness_mm` when `compensate_lid_intrusion` is set (and 0
otherwise) — which is the thickness of the lid actually built, since
`build_hex_lid` sets the lid height to the wall thickness — not the
`LidSpec.thickness_mm` field. -/
theorem C1_lid_compensation_amended (K : Kernel) (deck : DeckSpec) (box : BoxSpec)
    (lid_spec : LidSpec) (dims : Dims) :
    (build_body K deck box).2.lid_comp_h
        = (if box.compensate_lid_intrusion then box.wall_thickness_mm else 0)
    ∧ (build_body K deck box).2.inner.2.2
        = (build_body K deck box).2.inner_nominal.2.2 + (build_body K deck box).2.lid_comp_h
    ∧ (build_hex_lid K box lid_spec dims).2.h = box.wall_thickness_mm :=
  ⟨rfl, rfl, rfl⟩

/-- C2: the derived envelope satisfies the reference dimension formulas:
inner width/depth/nominal-height from the deck measurements, outer
exceeding inner by exactly twice the wall thickness in plan and by the
bottom thickness in height (strictly, when those are positive), and the
default scenario yields an inner width of exactly 69 mm. -/
theorem C2_envelope (K : Kernel) (deck : DeckSpec) (box : BoxSpec) :
    (build_body K deck box).2.inner.1
        = deck.outer_sleeve_size_mm.1 + 2 * deck.side_clearance_mm
    ∧ (build_body K deck box).2.inner.2.1
        = (deck.card_count : ℚ) * deck.estimated_double_sleeved_card_thickness_mm
          + deck.stack_clearance_mm
    ∧ (build_body K deck box).2.inner_nominal.2.2
        = deck.outer_sleeve_size_mm.2 + deck.top_clearance_mm
    ∧ (build_body K deck box).2.outer.1
        = (build_body K deck box).2.inner.1 + 2 * box.wall_thickness_mm
    ∧ (build_body K deck box).2.outer.2.1
        = (build_body K deck box).2.inner.2.1 + 2 * box.wall_thickness_mm
    ∧ (build_body K deck box).2.outer.2.2
        = (build_body K deck box).2.inner.2.2 + box.bottom_thickness_mm
    ∧ (0 < box.wall_thickness_mm →
        (build_body K deck box).2.inner.1 < (build_body K deck box).2.outer.1
        ∧ (build_body K deck box).2.inner.2.1 < (build_body K deck box).2.outer.2.1)
    ∧ (0 < box.bottom_thickness_mm →
        (build_body K deck box).2.inner.2.2 < (build_body K deck box).2.outer.2.2)
    ∧ (build_body K deck_default box_default).2.inner.1 = 69 := by
  refine ⟨rfl, rfl, rfl, rfl, rfl, rfl, fun h => ⟨?_, ?_⟩, fun h => ?_,
    by norm_num [build_body, calculate_internal, deck_default, box_default]⟩
  all_goals simp only [build_body, calculate_internal]
  all_goals linarith

/-- C2 (witness): the envelope theorem instantiated at the default
configuration, with both positivity hypotheses discharged. -/
theorem C2_envelope_witness :
    (0 < box_default.wall_thickness_mm)
    ∧ (0 < box_default.bottom_thickness_mm)
    ∧ (build_body K0 deck_default box_default).2.inner.1
        < (build_body K0 deck_default box_default).2.outer.1
    ∧ (build_body K0 deck_default box_default).2.inner.2.2
        < (build_body K0 deck_default box_default).2.outer.2.2 := by
  have h := C2_envelope K0 deck_default box_default
  exact ⟨by norm_num [box_default], by norm_num [box_default],
    (h.2.2.2.2.2.2.1 (by norm_num [box_default])).1,
    h.2.2.2.2.2.2.2.1 (by norm_num [box_default])⟩

/-- C9: a disabled `SideDepressionSpec` leaves the body unchanged and
returns an effective depth of exactly 0. -/
theorem C9_depressions_disabled (body : Solid) (dims : Dims) (dep : SideDepressionSpec)
    (h : dep.enabled = false) :
    add_side_depressions body dims dep = (body, 0) := by
  simp [add_side_depressions, h]

/-- C9 (witness): the disabled-depression theorem at a concrete body,
dimension record and spec. -/
theorem C9_depressions_disabled_witness :
    add_side_depressions b0 (build_body K0 deck_default box_default).2
      { dep_default with enabled := false } = (b0, 0) :=
  C9_depressions_disabled b0 _ _ rfl

/-- C10: the detent builder clamps its parameters: the sphere radius is
`max(0.2, diameter/2)` (hence at least 0.2), the built full protrusion is
`max(0.1, min(configured, 0.98·radius))` — so a configured protrusion
exceeding 98% of the radius is strictly reduced — the cut ratio is
clamped into [0.1, 1], and the default 0.6/0.5 configuration builds a
full protrusion of 0.294. -/
theorem C10_detent_clamps (l : LidSpec) :
    detent_radius l = max 0.2 (l.detent_diameter_mm * 0.5)
    ∧ (0.2 : ℚ) ≤ detent_radius l
    ∧ detent_protrusion_full l = max 0.1 (min l.detent_protrusion_mm (detent_radius l * 0.98))
    ∧ (detent_radius l * 0.98 < l.detent_protrusion_mm →
        detent_protrusion_full l = detent_radius l * 0.98
        ∧ detent_protrusion_full l < l.detent_protrusion_mm)
    ∧ (0.1 : ℚ) ≤ detent_cut_ratio_clamped l
    ∧ detent_cut_ratio_clamped l ≤ 1
    ∧ detent_protrusion_full lid_default = 0.294 := by
  have hr : (0.2 : ℚ) ≤ detent_radius l := le_max_left _ _
  have hr98 : (0.1 : ℚ) ≤ detent_radius l * 0.98 := by nlinarith
  refine ⟨rfl, hr, rfl, fun h => ?_, ?_, min_le_left _ _,
    by norm_num [detent_protrusion_full, detent_radius, lid_default, min_def, max_def]⟩
  · have hmin : min l.detent_protrusion_mm (detent_radius l * 0.98) = detent_radius l * 0.98 :=
      min_eq_right (le_of_lt h)
    have hfull : detent_protrusion_full l = detent_radius l * 0.98 := by
      rw [detent_protrusion_full, hmin, max_eq_right hr98]
    exact ⟨hfull, by rw [hfull]; exact h⟩
  · exact le_min (by norm_num) (le_max_left _ _)

/-- C10 (witness): the clamping theorem at the default lid spec, with the
over-long-protrusion hypothesis discharged (0.98·0.3 = 0.294 < 0.5). -/
theorem C10_detent_clamps_witness :
    detent_protrusion_full lid_default = detent_radius lid_default * 0.98
    ∧ detent_protrusion_full lid_default < lid_default.detent_protrusion_mm :=
  (C10_detent_clamps lid_default).2.2.2.1
    (by norm_num [detent_radius, lid_default, max_def])

/-- C3: the effective side-depression depth never exceeds
`min(wall_x, wall_y) - 0.05` (walls taken per axis as `(outer - inner)/2`),
for every requested depth, on any box whose walls accommodate the 0.05
safety margin; and the scenario requesting 10 mm on the default 4 mm-wall
box yields exactly 3.95 mm. -/
theorem C3_depth_clamp (body : Solid) (dims : Dims) (dep : SideDepressionSpec)
    (h : (0.05 : ℚ) ≤ min ((dims.outer.1 - dims.inner.1) * 0.5)
        ((dims.outer.2.1 - dims.inner.2.1) * 0.5)) :
    (add_side_depressions body dims dep).2
      ≤ min ((dims.outer.1 - dims.inner.1) * 0.5)
          ((dims.outer.2.1 - dims.inner.2.1) * 0.5) - 0.05
    ∧ (add_side_depressions b0 (build_body K0 deck_default box_default).2
        { dep_default with depth_mm := 10 }).2 = 3.95 := by
  constructor
  · rw [add_side_depressions_snd]
    have hcl : side_depression_depth dims dep
        ≤ min ((dims.outer.1 - dims.inner.1) * 0.5)
            ((dims.outer.2.1 - dims.inner.2.1) * 0.5) - 0.05 := by
      simp only [side_depression_depth]
      calc min |dep.depth_mm|
            (max 0 (min ((dims.outer.1 - dims.inner.1) * 0.5)
              ((dims.outer.2.1 - dims.inner.2.1) * 0.5) - 0.05))
          ≤ max 0 (min ((dims.outer.1 - dims.inner.1) * 0.5)
              ((dims.outer.2.1 - dims.inner.2.1) * 0.5) - 0.05) := min_le_right _ _
        _ = min ((dims.outer.1 - dims.inner.1) * 0.5)
              ((dims.outer.2.1 - dims.inner.2.1) * 0.5) - 0.05 :=
            max_eq_right (by linarith)
    split_ifs with hif
    · exact hcl
    · linarith
  · norm_num [add_side_depressions_snd, side_depression_depth, build_body,
      calculate_internal, deck_default, box_default, dep_default]

/-- C3 (witness): the clamp theorem instantiated on the default envelope
(4 mm walls) and the default depression spec, hypothesis discharged. -/
theorem C3_depth_clamp_witness :
    (0.05 : ℚ) ≤ min
        (((build_body K0 deck_default box_default).2.outer.1
            - (build_body K0 deck_default box_default).2.inner.1) * 0.5)
        (((build_body K0 deck_default box_default).2.outer.2.1
            - (build_body K0 deck_default box_default).2.inner.2.1) * 0.5)
    ∧ (add_side_depressions b0 (build_body K0 deck_default box_default).2 dep_default).2
        ≤ min
            (((build_body K0 deck_default box_default).2.outer.1
                - (build_body K0 deck_default box_default).2.inner.1) * 0.5)
            (((build_body K0 deck_default box_default).2.outer.2.1
                - (build_body K0 deck_default box_default).2.inner.2.1) * 0.5) - 0.05 := by
  have hh : (0.05 : ℚ) ≤ min
      (((build_body K0 deck_default box_default).2.outer.1
          - (build_body K0 deck_default box_default).2.inner.1) * 0.5)
      (((build_body K0 deck_default box_default).2.outer.2.1
          - (build_body K0 deck_default box_default).2.inner.2.1) * 0.5) := by
    norm_num [build_body, calculate_internal, deck_default, box_default]
  exact ⟨hh, (C3_depth_clamp b0 _ dep_default hh).1⟩

/-- C4 (counterexample): the inner-rim top chamfer is an edge-finishing
site, yet with a kernel on which every chamfer attempt raises,
`chamfer_top_inner_edges` propagates the failure (`none`) instead of
returning the input solid. -/
theorem C4_finishing_failures_counterexample :
    chamfer_top_inner_edges Kfail b0 box_default = none
    ∧ chamfer_top_inner_edges Kfail b0 box_default ≠ some b0 := by
  have h : chamfer_top_inner_edges Kfail b0 box_default = none := by
    norm_num [chamfer_top_inner_edges, Kfail, box_default]
  exact ⟨h, by rw [h]; exact fun hc => Option.noConfusion hc⟩

/-- C4 (amended): with a kernel on which every fillet/chamfer attempt
raises, the outer corner rounding, the lid front-edge rounding and the
side-depression opening chamfers all return their input solid unchanged;
the inner-rim top chamfer however propagates the kernel error (it has no
retry/absorb wrapper) whenever a positive chamfer is configured and its
edge selection is nonempty. -/
theorem C4_finishing_failures_amended (K : Kernel) (body lid : Solid) (dims : Dims)
    (box : BoxSpec) (dep : SideDepressionSpec) (d : ℚ)
    (hf : ∀ s sl q, K.fillet s sl q = none)
    (hc : ∀ s sl c, K.chamfer s sl c = none) :
    round_outer_edges K body dims box = body
    ∧ round_lid_front_edges K lid box = lid
    ∧ chamfer_side_depression_openings K body dims dep d = body
    ∧ (0 < box.top_chamfer_mm → K.edges body (top_inner_sel K body box) ≠ 0 →
        chamfer_top_inner_edges K body box = none) := by
  refine ⟨round_outer_edges_all_fail K hf body dims box,
    round_lid_front_edges_all_fail K hf lid box,
    chamfer_side_depression_all_fail K hc body dims dep d,
    fun h1 h2 => ?_⟩
  simp only [chamfer_top_inner_edges]
  rw [if_neg (not_le.mpr h1), if_pos h2, hc]

/-- C4 (witness): the amended theorem at the all-failing kernel `Kfail`,
the default box and envelope, with every hypothesis discharged. -/
theorem C4_finishing_failures_witness :
    0 < box_default.top_chamfer_mm
    ∧ Kfail.edges b0 (top_inner_sel Kfail b0 box_default) ≠ 0
    ∧ chamfer_top_inner_edges Kfail b0 box_default = none
    ∧ round_outer_edges Kfail b0 (build_body K0 deck_default box_default).2 box_default = b0
    ∧ round_lid_front_edges Kfail b0 box_default = b0
    ∧ chamfer_side_depression_openings Kfail b0
        (build_body K0 deck_default box_default).2 dep_default 3 = b0 := by
  have h := C4_finishing_failures_amended Kfail b0 b0
      (build_body K0 deck_default box_default).2 box_default dep_default 3
      (fun _ _ _ => rfl) (fun _ _ _ => rfl)
  exact ⟨by norm_num [box_default], by simp [Kfail],
    h.2.2.2 (by norm_num [box_default]) (by simp [Kfail]), h.1, h.2.1, h.2.2.1⟩

/-- C5 (counterexample): a configured side-depression chamfer size of 0 is
NOT a no-op: the stage falls back to the diagonal reference
`hypot(depth, depth)` and (with a succeeding kernel) modifies the body. -/
theorem C5_noop_counterexample :
    ({ dep_default with edge_chamfer_mm := 0 } : SideDepressionSpec).edge_chamfer_mm ≤ 0
    ∧ chamfer_side_depression_openings Ksucc b0 (build_body K0 deck_default box_default).2
        { dep_default with edge_chamfer_mm := 0 } 3 ≠ b0 := by
  constructor
  · norm_num [dep_default]
  · norm_num [chamfer_side_depression_openings, safe_chamfer, safe_chamfer_go,
      retry_factors, R2.hypotSame, R2.ofRat, R2.le, R2.lt, R2.rmin, R2.sub, R2.mulRat,
      R2.isNonneg, Ksucc, dep_default, build_body, calculate_internal, deck_default,
      box_default, b0, b1]

/-- C5 (amended): a zero-or-negative configured radius/chamfer is a no-op
at the outer corner rounding, the inner-rim top chamfer and the lid
front-edge rounding; the side-depression opening chamfer is instead a
no-op whenever the effective depression depth is non-positive (a
non-positive configured chamfer there falls back to the diagonal
reference rather than disabling the stage). -/
theorem C5_noop_amended (K : Kernel) (body lid : Solid) (dims : Dims) (box : BoxSpec) :
    (box.corner_radius_mm ≤ 0 → round_outer_edges K body dims box = body)
    ∧ (box.top_chamfer_mm ≤ 0 → chamfer_top_inner_edges K body box = some body)
    ∧ (box.corner_radius_mm ≤ 0 → round_lid_front_edges K lid box = lid)
    ∧ (∀ dep d, d ≤ 0 → chamfer_side_depression_openings K body dims dep d = body) := by
  refine ⟨fun h => ?_, fun h => ?_, fun h => ?_, fun dep d hd => ?_⟩
  · simp [round_outer_edges, max_eq_left h]
  · simp [chamfer_top_inner_edges, h]
  · simp [round_lid_front_edges, max_eq_left h]
  · simp only [chamfer_side_depression_openings]
    rw [if_pos (Or.inr hd)]

/-- C5 (witness): the no-op theorem at a zero-radius, zero-chamfer box and
a non-positive effective depth, every hypothesis discharged. -/
theorem C5_noop_witness :
    round_outer_edges K0 b0 (build_body K0 deck_default box_default).2
        { box_default with corner_radius_mm := 0, top_chamfer_mm := 0 } = b0
    ∧ chamfer_top_inner_edges K0 b0
        { box_default with corner_radius_mm := 0, top_chamfer_mm := 0 } = some b0
    ∧ round_lid_front_edges K0 b0
        { box_default with corner_radius_mm := 0, top_chamfer_mm := 0 } = b0
    ∧ chamfer_side_depression_openings K0 b0 (build_body K0 deck_default box_default).2
        dep_default (-1) = b0 := by
  have h := C5_noop_amended K0 b0 b0 (build_body K0 deck_default box_default).2
      { box_default with corner_radius_mm := 0, top_chamfer_mm := 0 }
  exact ⟨h.1 (by norm_num [box_default]), h.2.1 (by norm_num [box_default]),
    h.2.2.1 (by norm_num [box_default]), h.2.2.2 dep_default (-1) (by norm_num)⟩

/-- C6: the robust finishing routines attempt the fillet/chamfer at the
radius scaled by 1.0, 0.85, 0.7, 0.55, 0.4 in that order and return the
first successful attempt (falling back to the input when all fail),
provided no scaled radius drops below the 0.05 skip threshold; and an
empty edge selection always returns the input solid unchanged. -/
theorem C6_retry_sequence (K : Kernel) (bIn : Solid) (sel : Region) (r : ℚ) (c : R2) :
    (K.edges bIn sel ≠ 0 → (∀ f ∈ retry_factors, ¬(r * f < (0.05 : ℚ))) →
      safe_fillet K bIn sel r = (fillet_first_success K bIn sel r retry_factors).getD bIn)
    ∧ (K.edges bIn sel ≠ 0 →
        (∀ f ∈ retry_factors, R2.lt (c.mulRat f) (R2.ofRat 0.05) = false) →
        safe_chamfer K bIn sel c
          = (chamfer_first_success K bIn sel c retry_factors).getD bIn)
    ∧ (K.edges bIn sel = 0 →
        safe_fillet K bIn sel r = bIn ∧ safe_chamfer K bIn sel c = bIn) :=
  ⟨fun he hno => safe_fillet_go_first_success K bIn sel r he retry_factors hno,
   fun he hno => safe_chamfer_go_first_success K bIn sel c he retry_factors hno,
   fun he => ⟨safe_fillet_go_empty_sel K bIn sel r he retry_factors,
     safe_chamfer_go_empty_sel K bIn sel c he retry_factors⟩⟩

/-- C6 (witness): the retry theorem at concrete kernels — a succeeding
kernel with radius 1 (no factor skipped) and an empty-selection kernel —
with every hypothesis discharged. -/
theorem C6_retry_sequence_witness :
    safe_fillet Ksucc b0 sel0 1
        = (fillet_first_success Ksucc b0 sel0 1 retry_factors).getD b0
    ∧ safe_chamfer Ksucc b0 sel0 (R2.ofRat 1)
        = (chamfer_first_success Ksucc b0 sel0 (R2.ofRat 1) retry_factors).getD b0
    ∧ safe_fillet K0 b0 sel0 1 = b0
    ∧ safe_chamfer K0 b0 sel0 (R2.ofRat 1) = b0 := by
  have h1 := C6_retry_sequence Ksucc b0 sel0 1 (R2.ofRat 1)
  have h2 := C6_retry_sequence K0 b0 sel0 1 (R2.ofRat 1)
  have hempty := h2.2.2 (by simp [K0])
  refine ⟨h1.1 (by simp [Ksucc]) (by norm_num [retry_factors]),
    h1.2.1 (by simp [Ksucc]) ?_, hempty.1, hempty.2⟩
  norm_num [retry_factors, R2.lt, R2.le, R2.sub, R2.mulRat, R2.ofRat, R2.isNonneg]

/-- C7 (counterexample): with the default positive fit relief, the groove
cutter built by `cut_body_with_lid` is NOT the lid unioned with copies
translated only along the axes transverse to the sliding (depth, Y)
direction: it differs from that transverse-axes (X/Z) construction. -/
theorem C7_groove_relief_counterexample :
    0 < lid_default.groove_fit_relief_mm
    ∧ lid_groove_cutter b0 lid_default ≠ lid_groove_cutter_transverse b0 lid_default := by
  constructor
  · norm_num [lid_default]
  · norm_num [lid_groove_cutter, lid_groove_cutter_transverse, lid_default, b0,
      Prod.ext_iff]
    intro h
    injection h with h1 h2
    injection h2 with h3 h4
    norm_num at h3

/-- C7 (amended): when the fit relief is positive, the groove cutter is
the lid (dropped by the anti-coplanar epsilon 0.05) unioned with four
copies translated by `±fit_relief` along the two horizontal axes — X,
transverse to the slide, and Y, the sliding (depth) axis itself — so the
channel is widened along the slide direction as well, and no `±fit_relief`
copy is made along the vertical transverse axis Z. -/
theorem C7_groove_relief_amended (lid : Solid) (l : LidSpec)
    (h : 0 < l.groove_fit_relief_mm) :
    lid_groove_cutter lid l =
      Solid.union
        (Solid.union
          (Solid.union
            (Solid.union (Solid.translate lid (0, 0, -0.05))
              (Solid.translate lid (l.groove_fit_relief_mm, 0, -0.05)))
            (Solid.translate lid (-l.groove_fit_relief_mm, 0, -0.05)))
          (Solid.translate lid (0, l.groove_fit_relief_mm, -0.05)))
        (Solid.translate lid (0, -l.groove_fit_relief_mm, -0.05)) := by
  simp [lid_groove_cutter, h]

/-- C7 (witness): the amended cutter characterization at a concrete lid
and the default lid spec, relief-positivity hypothesis discharged. -/
theorem C7_groove_relief_witness :
    lid_groove_cutter b0 lid_default =
      Solid.union
        (Solid.union
          (Solid.union
            (Solid.union (Solid.translate b0 (0, 0, -0.05))
              (Solid.translate b0 (lid_default.groove_fit_relief_mm, 0, -0.05)))
            (Solid.translate b0 (-lid_default.groove_fit_relief_mm, 0, -0.05)))
          (Solid.translate b0 (0, lid_default.groove_fit_relief_mm, -0.05)))
        (Solid.translate b0 (0, -lid_default.groove_fit_relief_mm, -0.05)) :=
  C7_groove_relief_amended b0 lid_default (by norm_num [lid_default])

/-- C8 (counterexample): for a cut ratio of 1/20 — inside the claimed
interval (0, 1] — the cut protrusion does NOT equal the full protrusion
times the configured ratio: the builder first clamps the ratio up to
0.1. -/
theorem C8_detent_cut_counterexample :
    (0 : ℚ) < ({ lid_default with detent_cut_ratio := 1/20 } : LidSpec).detent_cut_ratio
    ∧ ({ lid_default with detent_cut_ratio := 1/20 } : LidSpec).detent_cut_ratio ≤ 1
    ∧ detent_protrusion_cut { lid_default with detent_cut_ratio := 1/20 }
        ≠ detent_protrusion_full { lid_default with detent_cut_ratio := 1/20 }
          * ({ lid_default with detent_cut_ratio := 1/20 } : LidSpec).detent_cut_ratio := by
  refine ⟨by norm_num [lid_default], by norm_num [lid_default], ?_⟩
  norm_num [detent_protrusion_cut, detent_protrusion_full, detent_cut_ratio_clamped,
    detent_radius, lid_default, min_def, max_def]

/-- C8 (amended): for every cut ratio in (0, 1], the cut protrusion equals
the full protrusion times `max(0.1, cut_ratio)` — the ratio is clamped
below at 0.1 — so it equals full × cut_ratio exactly when the ratio is at
least 0.1, and it never exceeds the full protrusion. -/
theorem C8_detent_cut_amended (l : LidSpec) (_h0 : 0 < l.detent_cut_ratio)
    (h1 : l.detent_cut_ratio ≤ 1) :
    detent_protrusion_cut l = detent_protrusion_full l * max 0.1 l.detent_cut_ratio
    ∧ ((0.1 : ℚ) ≤ l.detent_cut_ratio →
        detent_protrusion_cut l = detent_protrusion_full l * l.detent_cut_ratio)
    ∧ detent_protrusion_cut l ≤ detent_protrusion_full l := by
  have hcl : detent_cut_ratio_clamped l = max 0.1 l.detent_cut_ratio :=
    min_eq_right (max_le (by norm_num) h1)
  have hfull0 : (0 : ℚ) ≤ detent_protrusion_full l :=
    le_trans (by norm_num) (le_max_left _ _)
  refine ⟨by rw [detent_protrusion_cut, hcl], fun h => ?_, ?_⟩
  · rw [detent_protrusion_cut, hcl, max_eq_right h]
  · calc detent_protrusion_cut l
        = detent_protrusion_full l * detent_cut_ratio_clamped l := rfl
      _ ≤ detent_protrusion_full l * 1 :=
          mul_le_mul_of_nonneg_left (min_le_left _ _) hfull0
      _ = detent_protrusion_full l := mul_one _

/-- C8 (witness): the amended theorem at the default lid spec (ratio 0.8),
every hypothesis discharged. -/
theorem C8_detent_cut_witness :
    detent_protrusion_cut lid_default
        = detent_protrusion_full lid_default * lid_default.detent_cut_ratio
    ∧ detent_protrusion_cut lid_default ≤ detent_protrusion_full lid_default := by
  have h := C8_detent_cut_amended lid_default (by norm_num [lid_default])
      (by norm_num [lid_default])
  exact ⟨h.2.1 (by norm_num [lid_default]), h.2.2⟩
